import Mathlib

/-!
Shallow embedding of the SSQR product-registration Flask application
(`src/app.py`) and proofs about its handlers.

The external Supabase `equipment` table is modelled as a `List Equipment`;
each HTTP handler becomes a pure function from its request data (and the
current store) to a response (and the updated store).  Values that Python
obtains from the environment — `secrets.token_urlsafe(32)`, the
store-assigned row id and `created_at`, and `datetime.utcnow()` — are
passed in as explicit parameters.
-/

namespace SSQR

/-- Python truthiness of an optional string column value: `None` and the
empty string are falsy, every other string is truthy. -/
def truthy : Option String → Bool
  | none => false
  | some s => !s.isEmpty

/-- One row of the `equipment` table (§3 of the data model).  `Option`
fields are `NULL`-able columns.  GPS coordinates are modelled as rationals.
`export_country` exists in the data model but is never read by this
variant's code. -/
structure Equipment where
  id : String
  product_code : String
  product_name : String
  model : String
  unit_number : String
  customer : String
  export_country : Option String
  access_token : String
  installation_date : Option String
  carrier_info : Option String
  dealer_code : Option String
  registration_latitude : Option Rat
  registration_longitude : Option Rat
  registration_timestamp : Option String
  created_at : Option String
  updated_at : Option String
deriving Repr, DecidableEq

/-! ### Python `float()` parsing

Model of `float(s)` succeeding/failing with the parsed value, covering the
sign / integer part / fractional part / exponent grammar.  (The rarely-hit
extras of CPython's grammar — `inf`, `nan`, digit-group underscores — are
omitted; no claim depends on them.) -/

def digitsVal (l : List Char) : Nat :=
  l.foldl (fun a c => a * 10 + (c.toNat - 48)) 0

def allDigits (l : List Char) : Bool :=
  !l.isEmpty && l.all Char.isDigit

/-- Python `s.split(sep)` on a single-character separator: every
occurrence splits, empty segments are kept (`''.split('?') == ['']`). -/
def splitChar (sep : Char) : List Char → List (List Char)
  | [] => [[]]
  | c :: rest =>
    if c == sep then [] :: splitChar sep rest
    else
      match splitChar sep rest with
      | [] => [[c]]
      | h :: t => (c :: h) :: t

/-- Python `s.split(sep)` returning strings. -/
def pySplit (sep : Char) (s : String) : List String :=
  (splitChar sep s.data).map String.mk

/-- Python `s.strip()` (ASCII whitespace, the case that matters here). -/
def pyStrip (s : String) : String :=
  ⟨((s.data.dropWhile Char.isWhitespace).reverse.dropWhile Char.isWhitespace).reverse⟩

/-- Python `s.lower()` (ASCII case folding, enough for language tags and
the strings this program compares). -/
def lowerStr (s : String) : String :=
  ⟨s.data.map Char.toLower⟩

def parseExp? : List Char → Option Int
  | '+' :: rest => if allDigits rest then some (digitsVal rest) else none
  | '-' :: rest => if allDigits rest then some (-(digitsVal rest : Int)) else none
  | rest => if allDigits rest then some (digitsVal rest) else none

/-- Mantissa of a float literal as an exact numerator/denominator pair
(the denominator a power of ten), together with the unconsumed rest. -/
def parseMantissa? (cs : List Char) : Option ((Int × Nat) × List Char) :=
  let ip := cs.takeWhile Char.isDigit
  let r1 := cs.dropWhile Char.isDigit
  match r1 with
  | '.' :: r2 =>
    let fp := r2.takeWhile Char.isDigit
    let r3 := r2.dropWhile Char.isDigit
    if ip.isEmpty && fp.isEmpty then none
    else some (((digitsVal ip * 10 ^ fp.length + digitsVal fp : Nat), 10 ^ fp.length), r3)
  | _ => if ip.isEmpty then none else some (((digitsVal ip : Nat), 1), r1)

def parseFloat? (s : String) : Option Rat :=
  let cs := (pyStrip s).data
  let signed : Int × List Char :=
    match cs with
    | '+' :: r => (1, r)
    | '-' :: r => (-1, r)
    | r => (1, r)
  match parseMantissa? signed.2 with
  | none => none
  | some ((n, d), rest) =>
    match rest with
    | [] => some (mkRat (signed.1 * n) d)
    | c :: r =>
      if c == 'e' || c == 'E' then
        (parseExp? r).map (fun k =>
          if 0 ≤ k then mkRat (signed.1 * n * (10 : Int) ^ k.toNat) d
          else mkRat (signed.1 * n) (d * 10 ^ (-k).toNat))
      else none

/-! ### `POST /api/scan_qr` (app.py `api_scan_qr`) -/

/-- Values the application obtains from outside when inserting a row:
the freshly generated `secrets.token_urlsafe(32)` token, and the
store-assigned row id and `created_at` timestamp. -/
structure InsertEnv where
  token : String
  newId : String
  createdAt : String
deriving Repr, DecidableEq

/-- Response of the scan-QR endpoint.  `error` carries the JSON error
message and the HTTP status; `exist` is the `status: "exists"` body and
`created` the `status: "created"` body. -/
inductive ScanQrResp where
  | error (msg : String) (status : Nat)
  | exist (product_group unit_number access_token : String) (already_installed : Bool)
  | created (product_group unit_number access_token : String)
deriving Repr, DecidableEq

/-- The row inserted by `api_scan_qr` for a new product code: only the six
listed columns are set, everything else is `NULL`; id and `created_at`
come from the store. -/
def newEquipment (product_code product_name product_group unit_number customer : String)
    (env : InsertEnv) : Equipment where
  id := env.newId
  product_code := product_code
  product_name := product_name
  model := product_group
  unit_number := unit_number
  customer := customer
  export_country := none
  access_token := env.token
  installation_date := none
  carrier_info := none
  dealer_code := none
  registration_latitude := none
  registration_longitude := none
  registration_timestamp := none
  created_at := some env.createdAt
  updated_at := none

/-- `api_scan_qr` (app.py lines 25-90): parse `qr_data` on `?`, validate
field count (4 or 5) and required fields, then either return the existing
row's token (`already_installed` is an `is not None` check) or insert a
new PENDING row. -/
def api_scan_qr (qr_data : String) (env : InsertEnv) (store : List Equipment) :
    ScanQrResp × List Equipment :=
  if qr_data.isEmpty then
    (.error "QR 데이터가 없습니다." 400, store)
  else
    let parts := pySplit '?' qr_data
    if parts.length < 4 || parts.length > 5 then
      (.error "잘못된 QR 형식입니다. (4~5개 항목 필요)" 400, store)
    else
      let product_code := parts.getD 0 ""
      let product_name := parts.getD 1 ""
      let product_group := parts.getD 2 ""
      let unit_number := parts.getD 3 ""
      let customer := if parts.length == 5 then parts.getD 4 "" else ""
      if product_code.isEmpty || unit_number.isEmpty then
        (.error "제품코드와 호기는 필수입니다." 400, store)
      else
        match store.filter (fun e => e.product_code == product_code) with
        | equip :: _ =>
          (.exist product_group unit_number equip.access_token
            equip.installation_date.isSome, store)
        | [] =>
          let ins := newEquipment product_code product_name product_group unit_number
            customer env
          (.created product_group unit_number env.token, store ++ [ins])

/-! ### `POST /update_installation_date` (app.py `update_installation_date`) -/

/-- Form fields of the commit-installation request.  `request.form.get`
returns `None` for an absent field and the raw string otherwise; since the
handler only ever tests truthiness of `equipment_id`, `installation_date`,
`dealer_code`, `latitude` and `longitude`, an absent field is modelled as
the empty string. -/
structure UpdateForm where
  equipment_id : String
  installation_date : String
  carrier_info : String
  dealer_code : String
  latitude : String
  longitude : String
deriving Repr, DecidableEq

/-- Response of the commit-installation endpoint. -/
inductive UpdateResp where
  | error (msg : String) (status : Nat)
  | success (msg : String)
deriving Repr, DecidableEq

/-- HTTP status of an `UpdateResp` (a plain `jsonify` result is 200). -/
def UpdateResp.status : UpdateResp → Nat
  | .error _ s => s
  | .success _ => 200

/-- The GPS block of `update_installation_date` (app.py lines 1805-1811):
the dict assignment `update_data['registration_latitude'] = float(latitude)`
runs before `float(longitude)` can raise `ValueError`, so a parseable
latitude followed by an unparseable longitude leaves the latitude in
`update_data`. -/
def gpsUpdate (latitude longitude : String) (e : Equipment) : Equipment :=
  if !latitude.isEmpty && !longitude.isEmpty then
    match parseFloat? latitude with
    | none => e
    | some la =>
      match parseFloat? longitude with
      | none => { e with registration_latitude := some la }
      | some lo =>
        { e with registration_latitude := some la, registration_longitude := some lo }
  else e

/-- The row mutation performed by the final
`supabase.table('equipment').update(update_data).eq('id', equipment_id)`:
every row whose id matches gets the update dict applied. -/
def applyUpdate (form : UpdateForm) (now : String) (e : Equipment) : Equipment :=
  if e.id == form.equipment_id then
    gpsUpdate form.latitude form.longitude
      { e with installation_date := some form.installation_date,
               carrier_info := some form.carrier_info,
               dealer_code := some form.dealer_code,
               registration_timestamp := some now,
               updated_at := some now }
  else e

/-- Truthiness of `existing.data and existing.data[0].get('installation_date')`:
result list non-empty and the first row's `installation_date` truthy. -/
def existingInstalled : List Equipment → Bool
  | [] => false
  | e :: _ => truthy e.installation_date

/-- `update_installation_date` (app.py lines 1775-1820).  `now` stands for
`datetime.utcnow().isoformat()`. -/
def update_installation_date (form : UpdateForm) (now : String)
    (store : List Equipment) : UpdateResp × List Equipment :=
  if form.equipment_id.isEmpty || form.installation_date.isEmpty then
    (.error "필수 정보가 누락되었습니다." 400, store)
  else if form.dealer_code.isEmpty then
    (.error "딜러 코드를 입력해주세요." 400, store)
  else if existingInstalled (store.filter (fun e => e.id == form.equipment_id)) then
    (.error "이미 등록된 장비입니다." 400, store)
  else
    (.success "장착일이 성공적으로 등록되었습니다.", store.map (applyUpdate form now))

/-! ### Locale resolution (app.py `get_language`, `COUNTRY_LANG_MAP`) -/

/-- The 32 supported locale codes listed in `get_language`. -/
def supported_langs : List String :=
  ["en", "ko", "ja", "zh", "id", "es",
   "vi", "th", "ar", "tr", "pt", "de", "fr", "it", "nl",
   "ru", "pl", "cs", "ro", "hu", "uk", "sv", "da", "no", "fi", "el",
   "fa", "bg", "sr", "hr", "sk", "sl"]

/-- Werkzeug `Accept._value_matches` for language tags: a client wildcard
matches everything, otherwise case-insensitive equality. -/
def valueMatches (server client : String) : Bool :=
  client == "*" || lowerStr server == lowerStr client

/-- Primary subtag of a language tag (`fr-FR` gives `fr`). -/
def primaryTag (s : String) : String :=
  ⟨s.data.takeWhile (fun c => c != '-' && c != '_')⟩

/-- Werkzeug `LanguageAccept.best_match` for a client list given in
descending quality order: first an exact (case-insensitive) pass, then a
pass that falls back to the client tags' primary subtags.  (The remaining
werkzeug fallback, matching primary subtags of the *server* items,
coincides with the first pass here because every supported code is already
a bare primary subtag.) -/
def bestMatch (offered accepted : List String) : Option String :=
  match accepted.findSome? (fun a => offered.find? (fun m => valueMatches m a)) with
  | some r => some r
  | none => accepted.findSome?
      (fun a => offered.find? (fun m => valueMatches m (primaryTag a)))

/-- `get_language` (app.py lines 1715-1731): despite taking the equipment
record, it only consults the browser Accept-Language list and defaults to
English. -/
def get_language (equipment : Equipment) (accepted : List String) : String :=
  match bestMatch supported_langs accepted with
  | some browser_lang => browser_lang
  | none => "en"

/-- `COUNTRY_LANG_MAP` (app.py lines 1561-1712), defined but never
consulted by `get_language`. -/
def COUNTRY_LANG_MAP : List (String × String) :=
  [("한국", "ko"), ("Korea", "ko"), ("South Korea", "ko"), ("KR", "ko"), ("대한민국", "ko"),
   ("일본", "ja"), ("Japan", "ja"), ("JP", "ja"),
   ("중국", "zh"), ("China", "zh"), ("CN", "zh"),
   ("대만", "zh"), ("Taiwan", "zh"), ("TW", "zh"),
   ("홍콩", "zh"), ("Hong Kong", "zh"), ("HK", "zh"),
   ("몽골", "en"), ("Mongolia", "en"), ("MN", "en"),
   ("인도네시아", "id"), ("Indonesia", "id"),
   ("베트남", "vi"), ("Vietnam", "vi"), ("VN", "vi"),
   ("태국", "th"), ("Thailand", "th"), ("TH", "th"),
   ("필리핀", "en"), ("Philippines", "en"), ("PH", "en"),
   ("말레이시아", "en"), ("Malaysia", "en"), ("MY", "en"),
   ("싱가포르", "en"), ("Singapore", "en"), ("SG", "en"),
   ("미얀마", "en"), ("Myanmar", "en"), ("MM", "en"),
   ("캄보디아", "en"), ("Cambodia", "en"), ("KH", "en"),
   ("라오스", "en"), ("Laos", "en"), ("LA", "en"),
   ("인도", "en"), ("India", "en"), ("IN", "en"),
   ("방글라데시", "en"), ("Bangladesh", "en"), ("BD", "en"),
   ("파키스탄", "en"), ("Pakistan", "en"), ("PK", "en"),
   ("스리랑카", "en"), ("Sri Lanka", "en"), ("LK", "en"),
   ("네팔", "en"), ("Nepal", "en"), ("NP", "en"),
   ("사우디아라비아", "ar"), ("Saudi Arabia", "ar"), ("SA", "ar"),
   ("아랍에미리트", "ar"), ("UAE", "ar"), ("United Arab Emirates", "ar"), ("AE", "ar"),
   ("카타르", "ar"), ("Qatar", "ar"), ("QA", "ar"),
   ("쿠웨이트", "ar"), ("Kuwait", "ar"), ("KW", "ar"),
   ("오만", "ar"), ("Oman", "ar"), ("OM", "ar"),
   ("바레인", "ar"), ("Bahrain", "ar"), ("BH", "ar"),
   ("이라크", "ar"), ("Iraq", "ar"), ("IQ", "ar"),
   ("요르단", "ar"), ("Jordan", "ar"), ("JO", "ar"),
   ("레바논", "ar"), ("Lebanon", "ar"), ("LB", "ar"),
   ("이란", "fa"), ("Iran", "fa"), ("IR", "fa"),
   ("터키", "tr"), ("Turkey", "tr"), ("Turkiye", "tr"), ("TR", "tr"),
   ("이스라엘", "en"), ("Israel", "en"), ("IL", "en"),
   ("호주", "en"), ("Australia", "en"), ("AU", "en"),
   ("뉴질랜드", "en"), ("New Zealand", "en"), ("NZ", "en"),
   ("파푸아뉴기니", "en"), ("Papua New Guinea", "en"), ("PG", "en"),
   ("미국", "en"), ("USA", "en"), ("United States", "en"), ("US", "en"),
   ("캐나다", "en"), ("Canada", "en"), ("CA", "en"),
   ("멕시코", "es"), ("Mexico", "es"), ("MX", "es"),
   ("아르헨티나", "es"), ("Argentina", "es"),
   ("칠레", "es"), ("Chile", "es"), ("CL", "es"),
   ("콜롬비아", "es"), ("Colombia", "es"), ("CO", "es"),
   ("페루", "es"), ("Peru", "es"), ("PE", "es"),
   ("에콰도르", "es"), ("Ecuador", "es"), ("EC", "es"),
   ("베네수엘라", "es"), ("Venezuela", "es"), ("VE", "es"),
   ("볼리비아", "es"), ("Bolivia", "es"), ("BO", "es"),
   ("파라과이", "es"), ("Paraguay", "es"), ("PY", "es"),
   ("우루과이", "es"), ("Uruguay", "es"), ("UY", "es"),
   ("파나마", "es"), ("Panama", "es"), ("PA", "es"),
   ("코스타리카", "es"), ("Costa Rica", "es"), ("CR", "es"),
   ("과테말라", "es"), ("Guatemala", "es"), ("GT", "es"),
   ("도미니카공화국", "es"), ("Dominican Republic", "es"), ("DO", "es"),
   ("스페인", "es"), ("Spain", "es"),
   ("브라질", "pt"), ("Brazil", "pt"), ("BR", "pt"),
   ("포르투갈", "pt"), ("Portugal", "pt"), ("PT", "pt"),
   ("영국", "en"), ("UK", "en"), ("United Kingdom", "en"), ("GB", "en"),
   ("아일랜드", "en"), ("Ireland", "en"), ("IE", "en"),
   ("독일", "de"), ("Germany", "de"), ("DE", "de"),
   ("오스트리아", "de"), ("Austria", "de"), ("AT", "de"),
   ("스위스", "de"), ("Switzerland", "de"), ("CH", "de"),
   ("프랑스", "fr"), ("France", "fr"), ("FR", "fr"),
   ("벨기에", "fr"), ("Belgium", "fr"), ("BE", "fr"),
   ("이탈리아", "it"), ("Italy", "it"), ("IT", "it"),
   ("네덜란드", "nl"), ("Netherlands", "nl"), ("NL", "nl"),
   ("스웨덴", "sv"), ("Sweden", "sv"), ("SE", "sv"),
   ("노르웨이", "no"), ("Norway", "no"), ("NO", "no"),
   ("덴마크", "da"), ("Denmark", "da"), ("DK", "da"),
   ("핀란드", "fi"), ("Finland", "fi"), ("FI", "fi"),
   ("그리스", "el"), ("Greece", "el"), ("GR", "el"),
   ("러시아", "ru"), ("Russia", "ru"), ("RU", "ru"),
   ("카자흐스탄", "ru"), ("Kazakhstan", "ru"), ("KZ", "ru"),
   ("우즈베키스탄", "ru"), ("Uzbekistan", "ru"), ("UZ", "ru"),
   ("폴란드", "pl"), ("Poland", "pl"), ("PL", "pl"),
   ("체코", "cs"), ("Czech Republic", "cs"), ("Czechia", "cs"), ("CZ", "cs"),
   ("루마니아", "ro"), ("Romania", "ro"), ("RO", "ro"),
   ("헝가리", "hu"), ("Hungary", "hu"), ("HU", "hu"),
   ("우크라이나", "uk"), ("Ukraine", "uk"), ("UA", "uk"),
   ("불가리아", "bg"), ("Bulgaria", "bg"), ("BG", "bg"),
   ("세르비아", "sr"), ("Serbia", "sr"), ("RS", "sr"),
   ("크로아티아", "hr"), ("Croatia", "hr"), ("HR", "hr"),
   ("슬로바키아", "sk"), ("Slovakia", "sk"), ("SK", "sk"),
   ("슬로베니아", "sl"), ("Slovenia", "sl"), ("SI", "sl"),
   ("남아프리카공화국", "en"), ("South Africa", "en"), ("ZA", "en"),
   ("나이지리아", "en"), ("Nigeria", "en"), ("NG", "en"),
   ("가나", "en"), ("Ghana", "en"), ("GH", "en"),
   ("케냐", "en"), ("Kenya", "en"), ("KE", "en"),
   ("탄자니아", "en"), ("Tanzania", "en"), ("TZ", "en"),
   ("에티오피아", "en"), ("Ethiopia", "en"), ("ET", "en"),
   ("잠비아", "en"), ("Zambia", "en"), ("ZM", "en"),
   ("짐바브웨", "en"), ("Zimbabwe", "en"), ("ZW", "en"),
   ("보츠와나", "en"), ("Botswana", "en"), ("BW", "en"),
   ("이집트", "ar"), ("Egypt", "ar"), ("EG", "ar"),
   ("모로코", "ar"), ("Morocco", "ar"), ("MA", "ar"),
   ("알제리", "ar"), ("Algeria", "ar"), ("DZ", "ar"),
   ("지부티", "ar"), ("Djibouti", "ar"), ("DJ", "ar"),
   ("콩고", "fr"), ("Congo", "fr"), ("CD", "fr"),
   ("앙골라", "pt"), ("Angola", "pt"), ("AO", "pt"),
   ("모잠비크", "pt"), ("Mozambique", "pt"), ("MZ", "pt")]

/-- The locale resolver as the specification describes it: (a) the
country-to-language table entry for the record's stored country, if any;
(b) otherwise best-match negotiation; (c) otherwise English.  Stated from
the spec's words for comparison with `get_language`, which implements only
(b) and (c). -/
def specLocaleResolver (country : Option String) (accepted : List String) : String :=
  match country.bind (fun c => COUNTRY_LANG_MAP.lookup c) with
  | some l => l
  | none =>
    match bestMatch supported_langs accepted with
    | some l => l
    | none => "en"

/-! ### Dealer Directory and `GET /scan/<token>` (app.py `DEALER_MAP`, `scan`) -/

/-- `DEALER_MAP` (app.py lines 286-403): static dealer code to display
name mapping, a module-level constant that no handler ever writes to. -/
def DEALER_MAP : List (String × String) :=
  [("9000400467", "SMITHBRIDGE GUAM INC."),
   ("9000400041", "Antony Pagidas"),
   ("9000400365", "HIGH POWER EQUIPMENT AFRICA"),
   ("9000411503", "van\x27t Hof Techniek"),
   ("9000411406", "Reesink Construction Equipment NL B"),
   ("9000400299", "PELLEN MACHINES BV"),
   ("9000400148", "Volvo Maskin AS"),
   ("9000400345", "Tecklenborg GmbH"),
   ("9000400771", "SCHMID BAUMASCHINEN GMBH"),
   ("9000400370", "Mann & Magar GmbH"),
   ("9000400755", "F.Schunke GmbH"),
   ("9000400653", "BVG BAUMASCHINEN GMBH"),
   ("9000400500", "Bau Suddeutsche Baum.Hanels GmbH"),
   ("9000411325", "ATLAS THURINGEN SUHL Miet- und Serv"),
   ("9000400346", "Atlas Thuringen GmbH"),
   ("9000400411", "Atlas Rostock GmbH"),
   ("9000400317", "Atlas Leipzig Gmbh"),
   ("9000411202", "AP Construction and"),
   ("9000411478", "URALPROMSERVIS"),
   ("9000400165", "KAMAL KAHI &SONS"),
   ("9000400887", "3F Impex srl"),
   ("9000400143", "UAB TECHNIKOS JEGA"),
   ("9000411607", "Hugo Schadler AG"),
   ("9000411496", "SYN TAI HUNG MARKETING SDN BHD"),
   ("9000411627", "MALTU PTE LTD"),
   ("9000400728", "Equipos Mejores S.A. de C.V."),
   ("9000411360", "ASIA MAQUINARIA DE MEXICO S.A. DE C.V."),
   ("9000411611", "DIMAINTSA S.A. de C.V."),
   ("9000400678", "DIMAPESA SA dv cv"),
   ("9000400450", "HYDRAU MAC S. A. R. L."),
   ("9000400221", "MECOM"),
   ("9000400123", "SR Service"),
   ("9000400930", "Soosan USA, Inc."),
   ("9000400175", "Sayed Kadhem Al Durazi & Sons Co."),
   ("9000411309", "Y.K ALMOAYYED & SONS"),
   ("9000411323", "TUNG LINH HYDRAULICS BREAKER JSC"),
   ("9000411636", "TRAN HONG PHAT"),
   ("9000400651", "Hiep Hoa Special Purpose Vehicle JSC"),
   ("9000411364", "Reesink Construction Equipment Belg"),
   ("9000411670", "HARZAK SRL"),
   ("9000411721", "Lager d.o.o."),
   ("9000400152", "A.ABUNAYYAN TRADING CORP."),
   ("9000400921", "RECON OPREMA DOO"),
   ("9000400075", "HAND BAUMASCHINEN AG"),
   ("9000411655", "Lera Maquinaria S.L"),
   ("9000400080", "Intertrac SA"),
   ("9000411282", "Exclusivas Generales Adal S.L"),
   ("9000411495", "ALIGRAS EQUIPOS, S.L.U."),
   ("9000400405", "Quarry Mining LLC"),
   ("9000400496", "STEVIN ROCK L.L.C."),
   ("9000411369", "ACTION EXPRESS ELECTRONICS L.L.C"),
   ("9000411605", "SELMAN"),
   ("9000411680", "KS MACHINERY"),
   ("9000411591", "CORRECT METHOD GOODS WHOLESALERS L.L.C"),
   ("9000411368", "Brave Dwellfront General Trading LLC"),
   ("9000411514", "SHOVEL"),
   ("9000411366", "ALDA Construction"),
   ("9000411374", "H&H MATINI GENERAL TRADING LLC"),
   ("9000411407", "RADIX"),
   ("9000411499", "MEGA ZONE"),
   ("9000411783", "United Motors & Heavy Equipment Co.L.L.C."),
   ("9000411376", "GOMAS GENERAL TRADING LLC"),
   ("9000411599", "SMARTEX"),
   ("9000411668", "METATECH"),
   ("9000400601", "REPAS SOCIEDAD ANONIMA"),
   ("9000400650", "CAMBIUM INTERNATIONAL, INC"),
   ("9000411329", "EURL SOSKA"),
   ("9000411642", "Hammer Service O"),
   ("9000400892", "GEDEQUIP"),
   ("9000400495", "MWE"),
   ("9000411570", "SUNBELT"),
   ("9000400154", "AL FAIRUZ TRAD. & CONT. CO. LLC."),
   ("9000400320", "Bulldozer Handels Gmbh"),
   ("9000411485", "CNC INTERNATIONAL LIMITED"),
   ("9000400931", "Bethlehem Hydraulic"),
   ("9000411505", "AL-MADINA Contracting Company"),
   ("9000411760", "Frenda Machine Srl"),
   ("9000400373", "Franceschino Gianni Service"),
   ("9000400661", "Om Hydraulics Equipments"),
   ("9000400693", "MANITOU EQUIPMENT INDIA PVT LTD"),
   ("9000411461", "M/S. UTKAL AGRO INTERNATIONAAL"),
   ("9000411672", "MANDA PROJECTS PRIVATE LIMITED"),
   ("9000411701", "JAY CONSTRUCTION EQUIPMENTS"),
   ("9000400342", "VOLVO CE INDIA PRIVATE LIMITED"),
   ("9000400233", "PT.AIRINDO SAKTI"),
   ("9000411455", "Yanmar Construction Equipment CO.,LTD"),
   ("9000400807", "XINSOOSAN HEAVY INDUSTRY(QINGDAO) CO.,LT"),
   ("9000400608", "AH Servis"),
   ("9000400158", "GOLDEN HYDRAULIC TECHNICAL CENTER"),
   ("9000400538", "Farm Engineering Industries Limitd"),
   ("9000411410", "Riham General Trading Co."),
   ("9000400576", "Maxtech d.o.o"),
   ("9000411667", "Lager Basic d.o.o."),
   ("9000400104", "Michalakis Pateras Trading Ltd"),
   ("9000411425", "GF TRUCKS & EQUIPMENT LTD"),
   ("9000400282", "WILLIAM WONG GROUP CO., LTD."),
   ("9000400746", "P.V.MINING AND EXPLORATION CO.,LTD"),
   ("9000400258", "World Tractor (1996) Co., Ltd."),
   ("9000411371", "AL MAKIYAL"),
   ("9000411513", "EMSAMAK"),
   ("9000400128", "SO.TU.DIS.SA"),
   ("9000400029", "SAMGWANG CORPORATION PANAMA"),
   ("9000411709", "Carvalho, Coimbra & Esteves, Lda."),
   ("9000401332", "POWERS MASZYNY Sp. z o.o."),
   ("9000400894", "Tahiti Automobiles SA"),
   ("9000411763", "RTX"),
   ("9000411545", "Arma Distribution"),
   ("9000411311", "GRACE ROAD FOOD COMPANY LIMITED"),
   ("9000411692", "Normet MRB Oy"),
   ("9000400622", "MRK-Rent Oy"),
   ("9000400524", "Marakon Oy"),
   ("9000400201", "CIVIC MERCHANDISING, INC"),
   ("9000411619", "Kotroalkatresz Kft."),
   ("9000400278", "AUSTAS HAMMERS & ACCESSORIES"),
   ("9000400238", "SHING LEE MACHINERY LIMITED"),
   ("9000400680", "T-Smart Logistics Ltd")]

/-- `DEALER_MAP.get(dealer_code, dealer_code)` in the `scan` handler,
applied to `equipment.get('dealer_code', '')`: a `NULL` dealer code stays
`None`; otherwise an unmapped code is echoed back unchanged. -/
def scanDealerName : Option String → Option String
  | none => none
  | some c => some ((DEALER_MAP.lookup c).getD c)

/-- The three outcomes of `GET /scan/<token>`. -/
inductive ScanView where
  | notFound (msg : String) (status : Nat)
  | verification (dealer_name : Option String) (lang : String)
  | registrationForm (lang : String)
deriving Repr, DecidableEq

/-- `scan` (app.py lines 1739-1773): look the token up, pick a language,
then render the verification view (with the resolved dealer name) when
`installation_date` is truthy, the registration form otherwise, or 404 for
an unknown token. -/
def scan (token : String) (accepted : List String) (store : List Equipment) : ScanView :=
  match store.filter (fun e => e.access_token == token) with
  | [] => .notFound "Invalid QR code." 404
  | equipment :: _ =>
    let lang := get_language equipment accepted
    if truthy equipment.installation_date then
      .verification (scanDealerName equipment.dealer_code) lang
    else
      .registrationForm lang

/-! ### `GET /api/equipment` (app.py `api_list_equipment`) -/

/-- The pagination of `api_list_equipment` (app.py lines 131-168):
`limit = min(int(request.args.get('limit', 100)), 1000)`,
`offset = int(request.args.get('offset', 0))`, and the supabase
`.range(offset, offset + limit - 1)` slice (inclusive bounds, so `limit`
rows).  `rows` stands for the filtered result set in the store's
`created_at`-descending order; `none` models an absent query parameter. -/
def api_list_equipment (limitArg offsetArg : Option Int) (rows : List Equipment) :
    Int × Int × List Equipment :=
  let lim : Int := min (limitArg.getD 100) 1000
  let offset : Int := offsetArg.getD 0
  (lim, offset, (rows.drop offset.toNat).take lim.toNat)

/-! ### Dates and the dashboard lead-time report (app.py `dashboard`)

`datetime.strptime(s[:10], '%Y-%m-%d').date()` is modelled by parsing the
first ten characters as a (range-checked) Gregorian date and converting it
to a day number, so that Python's `(install_date - created_date).days` is
plain subtraction of day numbers. -/

def isLeap (y : Nat) : Bool :=
  y % 4 == 0 && (y % 100 != 0 || y % 400 == 0)

def daysInMonth (y : Nat) (m : Nat) : Nat :=
  if m == 2 then (if isLeap y then 29 else 28)
  else if m == 4 || m == 6 || m == 9 || m == 11 then 30
  else 31

/-- Day number of a Gregorian date (days since 1970-01-01, the standard
civil-from-days construction).  `%Y` only matches non-negative years, so
`y : Nat`. -/
def daysFromCivil (y : Nat) (m d : Nat) : Int :=
  let yshift : Int := if m ≤ 2 then (y : Int) - 1 else (y : Int)
  let era : Int := (if 0 ≤ yshift then yshift else yshift - 399) / 400
  let yoe : Nat := (yshift - era * 400).toNat
  let mp : Nat := (m + 9) % 12
  let doy : Nat := (153 * mp + 2) / 5 + d - 1
  let doe : Nat := yoe * 365 + yoe / 4 - yoe / 100 + doy
  era * 146097 + (doe : Int) - 719468

/-- `datetime.strptime(s[:10], '%Y-%m-%d').date()` as a day number:
`%Y` takes one to four digits, `%m` and `%d` one or two, and the calendar
ranges are checked; `none` models the `ValueError` the handler's
`try`/`except` turns into a 500 response. -/
def toNatDigits? (l : List Char) : Option Nat :=
  if allDigits l then some (digitsVal l) else none

def parseDate? (s : String) : Option Int :=
  match splitChar '-' (s.data.take 10) with
  | [ys, ms, ds] =>
    match toNatDigits? ys, toNatDigits? ms, toNatDigits? ds with
    | some y, some m, some d =>
      if ys.length ≤ 4 && ms.length ≤ 2 && ds.length ≤ 2
          && 1 ≤ m && m ≤ 12 && 1 ≤ d && d ≤ daysInMonth y m then
        some (daysFromCivil y m d)
      else none
    | _, _, _ => none
  | _ => none

deriving instance DecidableEq for Except

/-- Accumulated lead-time data of the dashboard: the `lead_times` list and
the five `lead_time_ranges` counters (keys `0-7일`, `8-14일`, `15-30일`,
`31-60일`, `60일+`). -/
structure LeadTimeStats where
  lead_times : List Int
  r0_7 : Nat
  r8_14 : Nat
  r15_30 : Nat
  r31_60 : Nat
  r60p : Nat
deriving Repr, DecidableEq

/-- `if eq.get('installation_date') and eq.get('created_at'):` — both date
columns truthy. -/
def hasBothDates (e : Equipment) : Bool :=
  truthy e.installation_date && truthy e.created_at

/-- One record's contribution to the lead-time loop: skipped without both
dates, otherwise the day difference installation - creation, with a parse
failure aborting the whole dashboard request. -/
def recordContrib (e : Equipment) : Except String (Option Int) :=
  if hasBothDates e then
    match parseDate? (e.created_at.getD ""), parseDate? (e.installation_date.getD "") with
    | some created_date, some install_date => .ok (some (install_date - created_date))
    | _, _ => .error "time data does not match format"
  else .ok none

/-- The bucket classification of app.py lines 1890-1899: a chain of
upper-bound tests with no lower bound. -/
def bucketAdd (d : Int) (st : LeadTimeStats) : LeadTimeStats :=
  if d ≤ 7 then { st with r0_7 := st.r0_7 + 1 }
  else if d ≤ 14 then { st with r8_14 := st.r8_14 + 1 }
  else if d ≤ 30 then { st with r15_30 := st.r15_30 + 1 }
  else if d ≤ 60 then { st with r31_60 := st.r31_60 + 1 }
  else { st with r60p := st.r60p + 1 }

/-- Folding one record's contribution into the accumulated stats:
append the day difference to `lead_times` and bump its bucket. -/
def consContrib (c : Option Int) (st : LeadTimeStats) : LeadTimeStats :=
  match c with
  | none => st
  | some d => { bucketAdd d st with lead_times := d :: st.lead_times }

/-- The lead-time loop of `dashboard` (app.py lines 1862-1899) over the
full record list. -/
def leadTimeStats : List Equipment → Except String LeadTimeStats
  | [] => .ok ⟨[], 0, 0, 0, 0, 0⟩
  | e :: rest => do
    let c ← recordContrib e
    let st ← leadTimeStats rest
    pure (consContrib c st)

/-- Python `round(q)` on an exact rational value: round half to even.
The floor and the comparison of the remainder with one half are computed
on the numerator and denominator directly (for a rational `q` with
positive denominator, `⌊q⌋ = q.num.ediv q.den`). -/
def roundHalfEven (q : Rat) : Int :=
  let n : Int := q.num.ediv q.den
  let rnum : Int := q.num - n * q.den
  if 2 * rnum < (q.den : Int) then n
  else if (q.den : Int) < 2 * rnum then n + 1
  else if n % 2 = 0 then n else n + 1

/-- Python `round(q, 1)` on an exact rational value. -/
def round1 (q : Rat) : Rat :=
  mkRat (roundHalfEven (mkRat (q.num * 10) q.den)) 10

/-- `avg_lead_time = sum(lead_times) / len(lead_times) if lead_times else 0`
followed by `round(avg_lead_time, 1)` (app.py lines 1901 and 1911). -/
def avg_lead_time (st : LeadTimeStats) : Rat :=
  round1 (if st.lead_times.isEmpty then 0
          else mkRat st.lead_times.sum st.lead_times.length)

/-- Day difference of one record as the specification describes it:
defined exactly for records having both dates (with parseable values),
`none` otherwise. -/
def recordDiff? (e : Equipment) : Option Int :=
  if hasBothDates e then
    match parseDate? (e.created_at.getD ""), parseDate? (e.installation_date.getD "") with
    | some created_date, some install_date => some (install_date - created_date)
    | _, _ => none
  else none

/-! ### Helper lemmas and sample data -/

/-- A pending sample row, used as the base for concrete witnesses. -/
def baseEquip : Equipment where
  id := "1"
  product_code := "SCB1"
  product_name := "Name"
  model := "GroupA"
  unit_number := "U1"
  customer := ""
  export_country := none
  access_token := "tok"
  installation_date := none
  carrier_info := none
  dealer_code := none
  registration_latitude := none
  registration_longitude := none
  registration_timestamp := none
  created_at := none
  updated_at := none

theorem bestMatch_mem {offered accepted : List String} {r : String}
    (h : bestMatch offered accepted = some r) : r ∈ offered := by
  unfold bestMatch at h
  rcases h1 : accepted.findSome?
      (fun a => offered.find? (fun m => valueMatches m a)) with _ | r'
  · rw [h1] at h
    obtain ⟨a, -, hfind⟩ := List.exists_of_findSome?_eq_some h
    exact List.mem_of_find?_eq_some hfind
  · rw [h1] at h
    obtain ⟨a, -, hfind⟩ := List.exists_of_findSome?_eq_some h1
    cases h
    exact List.mem_of_find?_eq_some hfind

theorem map_eq_self_of_fixed {α : Type} {f : α → α} :
    ∀ {l : List α}, (∀ x ∈ l, f x = x) → l.map f = l
  | [], _ => rfl
  | x :: xs, h => by
    simp only [List.map_cons, h x (by simp)]
    rw [map_eq_self_of_fixed (fun y hy => h y (by simp [hy]))]

/-! ### Claims -/

/-- C7: for every value of the `limit` query parameter, the effective
limit used for pagination is `min(requested, 1000)`; in particular
`limit=5000` is served with an effective limit of 1000, and at most that
many rows are returned. -/
theorem limit_capped_at_1000 (n : Int) (offsetArg : Option Int) (rows : List Equipment) :
    (api_list_equipment (some n) offsetArg rows).1 = min n 1000
    ∧ (api_list_equipment (some n) offsetArg rows).2.2.length ≤ (min n 1000).toNat
    ∧ (api_list_equipment (some 5000) offsetArg rows).1 = 1000 := by
  refine ⟨rfl, ?_, ?_⟩
  · simp [api_list_equipment]
  · show min (5000 : Int) 1000 = 1000
    decide

/-- C8: the dealer name shown on the verification view is the Dealer
Directory's mapped display name when the code is in the directory, and the
code itself when it is unmapped.  (`DEALER_MAP` is a module-level constant
no handler writes to; in this embedding it is an immutable definition.) -/
theorem scan_dealer_name_resolution (e : Equipment) (accepted : List String)
    (rest : List Equipment) (code : String)
    (hdc : e.dealer_code = some code) (hinst : truthy e.installation_date = true) :
    scan e.access_token accepted (e :: rest)
      = .verification (some ((DEALER_MAP.lookup code).getD code)) (get_language e accepted)
    ∧ (∀ name, DEALER_MAP.lookup code = some name →
        (DEALER_MAP.lookup code).getD code = name)
    ∧ (DEALER_MAP.lookup code = none → (DEALER_MAP.lookup code).getD code = code) := by
  refine ⟨?_, ?_, ?_⟩
  · unfold scan
    rw [List.filter_cons_of_pos (by simp)]
    simp [hinst, hdc, scanDealerName]
  · intro name h
    rw [h]; rfl
  · intro h
    rw [h]; rfl

def installedEquip : Equipment :=
  { baseEquip with installation_date := some "2025-03-01", dealer_code := some "9000400467" }

/-- C8 witness: dealer code `9000400467` is mapped, so the verification
view shows `SMITHBRIDGE GUAM INC.`. -/
theorem scan_dealer_name_resolution_witness :
    scan "tok" [] [installedEquip]
      = ScanView.verification (some "SMITHBRIDGE GUAM INC.") "en" := by
  have h := scan_dealer_name_resolution installedEquip [] [] "9000400467" rfl rfl
  exact h.1

/-- C3 counterexample: the claim's resolution step (a) — consulting the
country-to-language table for the record's stored country — is not
implemented: `get_language` never reads the record or `COUNTRY_LANG_MAP`,
so a record whose country maps to `ko` still resolves to the browser's
`fr`. -/
theorem locale_ignores_country :
    get_language { baseEquip with export_country := some "Korea" } ["fr"] = "fr"
    ∧ COUNTRY_LANG_MAP.lookup "Korea" = some "ko"
    ∧ specLocaleResolver (some "Korea") ["fr"] = "ko"
    ∧ ("fr" : String) ≠ "ko" := by
  refine ⟨rfl, rfl, rfl, by decide⟩

/-- C3 amended: the locale resolver ignores the stored country entirely;
it returns the best match of the request's accepted-language list against
the 32 supported codes, and English otherwise.  It is total and always
returns a supported code, and its result does not depend on the equipment
record.  In particular accepted languages `fr, en` give `fr` and an
unsupported list gives `en`. -/
theorem get_language_total (e : Equipment) (accepted : List String) :
    get_language e accepted
      = (match bestMatch supported_langs accepted with
         | some l => l
         | none => "en")
    ∧ get_language e accepted ∈ supported_langs
    ∧ (∀ e₂ : Equipment, get_language e₂ accepted = get_language e accepted)
    ∧ get_language e ["fr", "en"] = "fr"
    ∧ get_language e ["xx"] = "en" := by
  refine ⟨rfl, ?_, fun e₂ => rfl, rfl, rfl⟩
  unfold get_language
  rcases h : bestMatch supported_langs accepted with _ | l
  · decide
  · exact bestMatch_mem h

/-- C4: evaluation of the handler at the failing input.  A commit with a
numeric latitude `"1.5"` and a malformed longitude `"abc"` succeeds and
writes `registration_latitude = 1.5` while leaving
`registration_longitude` unset: the coordinates are *not* dropped as a
pair, because the latitude is assigned into `update_data` before
`float(longitude)` raises. -/
theorem gps_lat_only_write :
    (update_installation_date ⟨"1", "2025-03-01", "carrier", "D001", "1.5", "abc"⟩
        "2025-03-01T00:00:00" [baseEquip]).1
      = .success "장착일이 성공적으로 등록되었습니다."
    ∧ (update_installation_date ⟨"1", "2025-03-01", "carrier", "D001", "1.5", "abc"⟩
        "2025-03-01T00:00:00" [baseEquip]).2.map
          (fun e => (e.registration_latitude, e.registration_longitude))
      = [(some (mkRat 3 2), none)]
    ∧ parseFloat? "1.5" = some (mkRat 3 2)
    ∧ parseFloat? "abc" = none := by
  exact ⟨by decide, by decide, by decide, by decide⟩

/-- C5 counterexample: for the empty payload the field count is 1 (not 4
or 5), yet the handler does not return the format-validation error the
claim requires — it returns the distinct missing-data error instead. -/
theorem empty_payload_error_mismatch :
    (api_scan_qr "" ⟨"t", "i", "c"⟩ []).1 = .error "QR 데이터가 없습니다." 400
    ∧ (pySplit '?' "").length = 1
    ∧ (ScanQrResp.error "QR 데이터가 없습니다." 400)
        ≠ .error "잘못된 QR 형식입니다. (4~5개 항목 필요)" 400 := by
  exact ⟨by decide, by decide, by decide⟩

/-- C5 amended: for every *non-empty* payload, the format error is
returned exactly when the field count is neither 4 nor 5, and for 4 or 5
fields the required-field error is returned exactly when `productCode` or
`unitNumber` is empty; any failure leaves the store unwritten.  (The empty
payload is rejected earlier with a distinct missing-data 400 error.) -/
theorem qr_validation (qr : String) (env : InsertEnv) (store : List Equipment)
    (hq : qr ≠ "") :
    ((api_scan_qr qr env store).1 = .error "잘못된 QR 형식입니다. (4~5개 항목 필요)" 400
      ↔ ¬((pySplit '?' qr).length = 4 ∨ (pySplit '?' qr).length = 5))
    ∧ (((pySplit '?' qr).length = 4 ∨ (pySplit '?' qr).length = 5) →
        ((api_scan_qr qr env store).1 = .error "제품코드와 호기는 필수입니다." 400
          ↔ ((pySplit '?' qr).getD 0 "" = "" ∨ (pySplit '?' qr).getD 3 "" = "")))
    ∧ (∀ msg st, (api_scan_qr qr env store).1 = .error msg st →
        (api_scan_qr qr env store).2 = store) := by
  have hqe : qr.isEmpty = false := by
    rw [Bool.eq_false_iff]
    intro h
    exact hq ((String.isEmpty_iff qr).1 h)
  unfold api_scan_qr
  rw [hqe]
  simp only [Bool.false_eq_true, if_false]
  by_cases hlen : (pySplit '?' qr).length < 4 ∨ (pySplit '?' qr).length > 4 + 1
  · have hb : ((pySplit '?' qr).length < 4 || (pySplit '?' qr).length > 4 + 1) = true := by
      simp [hlen]
    rw [if_pos hb]
    refine ⟨⟨fun _ => by omega, fun _ => rfl⟩, fun h => by omega, fun msg st _ => rfl⟩
  · have hb : ((pySplit '?' qr).length < 4 || (pySplit '?' qr).length > 4 + 1) = false := by
      simp only [Bool.or_eq_false_iff, decide_eq_false_iff_not]
      omega
    rw [if_neg (by simp [hb])]
    by_cases h0 : (pySplit '?' qr).getD 0 "" = ""
    · have h0b : ((pySplit '?' qr).getD 0 "").isEmpty = true := (String.isEmpty_iff _).2 h0
      have hb2 : (((pySplit '?' qr).getD 0 "").isEmpty
          || ((pySplit '?' qr).getD 3 "").isEmpty) = true := by
        rw [h0b]
        rfl
      rw [if_pos hb2]
      refine ⟨⟨fun h => ?_, fun h => by omega⟩,
        fun _ => ⟨fun _ => Or.inl h0, fun _ => rfl⟩,
        fun msg st _ => rfl⟩
      injection h with h1 h2
      exact absurd h1 (by decide)
    · have h0b : ((pySplit '?' qr).getD 0 "").isEmpty = false := by
        rw [Bool.eq_false_iff]
        intro hh
        exact h0 ((String.isEmpty_iff _).1 hh)
      by_cases h3 : (pySplit '?' qr).getD 3 "" = ""
      · have h3b : ((pySplit '?' qr).getD 3 "").isEmpty = true := (String.isEmpty_iff _).2 h3
        have hb2 : (((pySplit '?' qr).getD 0 "").isEmpty
            || ((pySplit '?' qr).getD 3 "").isEmpty) = true := by
          rw [h0b, h3b]
          rfl
        rw [if_pos hb2]
        refine ⟨⟨fun h => ?_, fun h => by omega⟩,
          fun _ => ⟨fun _ => Or.inr h3, fun _ => rfl⟩,
          fun msg st _ => rfl⟩
        injection h with h1 h2
        exact absurd h1 (by decide)
      · have h3b : ((pySplit '?' qr).getD 3 "").isEmpty = false := by
          rw [Bool.eq_false_iff]
          intro hh
          exact h3 ((String.isEmpty_iff _).1 hh)
        have hb2 : (((pySplit '?' qr).getD 0 "").isEmpty
            || ((pySplit '?' qr).getD 3 "").isEmpty) = false := by
          rw [h0b, h3b]
          rfl
        rw [if_neg (by rw [hb2]; exact Bool.false_ne_true)]
        have hne : ¬((pySplit '?' qr).getD 0 "" = "" ∨ (pySplit '?' qr).getD 3 "" = "") := by
          rintro (h | h)
          · exact h0 h
          · exact h3 h
        rcases hm : store.filter
            (fun e => e.product_code == (pySplit '?' qr).getD 0 "") with _ | ⟨equip, rest⟩
        · rw [hm]
          exact ⟨⟨(fun h => by cases h), (fun h => by omega)⟩,
            fun _ => ⟨(fun h => by cases h), fun h => absurd h hne⟩,
            fun msg st h => by cases h⟩
        · rw [hm]
          exact ⟨⟨(fun h => by cases h), (fun h => by omega)⟩,
            fun _ => ⟨(fun h => by cases h), fun h => absurd h hne⟩,
            fun msg st h => by cases h⟩

/-- C5 amended, witness: the concrete 3-field payload `a?b?c` is a format
error, the 4-field payload with an empty product code is a required-field
error, and neither writes to the store. -/
theorem qr_validation_witness :
    ((api_scan_qr "a?b?c" ⟨"t", "i", "c"⟩ []).1
        = .error "잘못된 QR 형식입니다. (4~5개 항목 필요)" 400
      ↔ ¬((pySplit '?' "a?b?c").length = 4 ∨ (pySplit '?' "a?b?c").length = 5))
    ∧ (((pySplit '?' "a?b?c").length = 4 ∨ (pySplit '?' "a?b?c").length = 5) →
        ((api_scan_qr "a?b?c" ⟨"t", "i", "c"⟩ []).1
            = .error "제품코드와 호기는 필수입니다." 400
          ↔ ((pySplit '?' "a?b?c").getD 0 "" = ""
              ∨ (pySplit '?' "a?b?c").getD 3 "" = "")))
    ∧ (∀ msg st, (api_scan_qr "a?b?c" ⟨"t", "i", "c"⟩ []).1 = .error msg st →
        (api_scan_qr "a?b?c" ⟨"t", "i", "c"⟩ []).2 = []) := by
  exact qr_validation "a?b?c" ⟨"t", "i", "c"⟩ [] (by decide)

/-- C1 counterexample: the duplicate-commit guard tests Python truthiness,
not `is not None`.  A record whose `installation_date` is the *non-null*
empty string passes the guard: the handler returns success (not the
claimed "already registered" 400) and overwrites the record. -/
theorem empty_string_installation_not_rejected :
    (update_installation_date ⟨"1", "2025-04-01", "", "D2", "", ""⟩ "T"
        [{ baseEquip with installation_date := some "" }]).1
      = .success "장착일이 성공적으로 등록되었습니다."
    ∧ (update_installation_date ⟨"1", "2025-04-01", "", "D2", "", ""⟩ "T"
        [{ baseEquip with installation_date := some "" }]).2
      ≠ [{ baseEquip with installation_date := some "" }]
    ∧ ({ baseEquip with installation_date := some "" }).installation_date ≠ none := by
  exact ⟨by decide, by decide, by decide⟩

/-- C1 amended: a commit-installation request whose `equipment_id` finds a
record whose `installation_date` is set to a non-null *and non-empty*
value gets the "already registered" 400 error and the store is left
completely unchanged (so the first commit's `installation_date`,
`carrier_info`, `dealer_code` and registration fields all survive). -/
theorem already_registered_rejected (form : UpdateForm) (now : String)
    (store t : List Equipment) (e : Equipment) (s : String)
    (h1 : form.equipment_id ≠ "") (h2 : form.installation_date ≠ "")
    (h3 : form.dealer_code ≠ "")
    (h4 : store.filter (fun x => x.id == form.equipment_id) = e :: t)
    (h5 : e.installation_date = some s) (h6 : s ≠ "") :
    update_installation_date form now store = (.error "이미 등록된 장비입니다." 400, store) := by
  have hb1 : form.equipment_id.isEmpty = false := by
    rw [Bool.eq_false_iff]
    intro h
    exact h1 ((String.isEmpty_iff _).1 h)
  have hb2 : form.installation_date.isEmpty = false := by
    rw [Bool.eq_false_iff]
    intro h
    exact h2 ((String.isEmpty_iff _).1 h)
  have hb3 : form.dealer_code.isEmpty = false := by
    rw [Bool.eq_false_iff]
    intro h
    exact h3 ((String.isEmpty_iff _).1 h)
  have hs : s.isEmpty = false := by
    rw [Bool.eq_false_iff]
    intro h
    exact h6 ((String.isEmpty_iff _).1 h)
  unfold update_installation_date
  rw [hb1, hb2, hb3]
  simp only [Bool.or_false, Bool.false_eq_true, if_false]
  rw [h4]
  have : existingInstalled (e :: t) = true := by
    show truthy e.installation_date = true
    rw [h5]
    show (!s.isEmpty) = true
    rw [hs]
    rfl
  rw [if_pos this]

/-- C1 amended, witness: a record already installed on `2025-03-01` makes
a second commit fail with the conflict error and leaves the store as it
was. -/
theorem already_registered_rejected_witness :
    update_installation_date ⟨"1", "2025-04-01", "", "D2", "", ""⟩ "T"
        [{ baseEquip with installation_date := some "2025-03-01" }]
      = (.error "이미 등록된 장비입니다." 400,
         [{ baseEquip with installation_date := some "2025-03-01" }]) := by
  exact already_registered_rejected ⟨"1", "2025-04-01", "", "D2", "", ""⟩ "T"
    [{ baseEquip with installation_date := some "2025-03-01" }] []
    { baseEquip with installation_date := some "2025-03-01" } "2025-03-01"
    (by decide) (by decide) (by decide) (by decide) rfl (by decide)

theorem update_status_400_or_200 (f : UpdateForm) (n : String) (s : List Equipment) :
    (update_installation_date f n s).1.status = 400
    ∨ (update_installation_date f n s).1.status = 200 := by
  unfold update_installation_date
  by_cases hA : (f.equipment_id.isEmpty || f.installation_date.isEmpty) = true
  · rw [if_pos hA]
    exact Or.inl rfl
  · rw [if_neg hA]
    by_cases hB : f.dealer_code.isEmpty = true
    · rw [if_pos hB]
      exact Or.inl rfl
    · rw [if_neg hB]
      by_cases hC : existingInstalled (s.filter (fun e => e.id == f.equipment_id)) = true
      · rw [if_pos hC]
        exact Or.inl rfl
      · rw [if_neg hC]
        exact Or.inr rfl

/-- C9: a commit-installation request whose `equipment_id` matches no
record but passes the field checks sails through the vacuous conflict
check, issues the (zero-row) update and returns the success message; the
endpoint can never answer 404. -/
theorem update_unknown_id_succeeds (form : UpdateForm) (now : String)
    (store : List Equipment)
    (h1 : form.equipment_id ≠ "") (h2 : form.installation_date ≠ "")
    (h3 : form.dealer_code ≠ "")
    (h4 : store.filter (fun x => x.id == form.equipment_id) = []) :
    update_installation_date form now store
      = (.success "장착일이 성공적으로 등록되었습니다.", store)
    ∧ ∀ (f : UpdateForm) (n : String) (s : List Equipment),
        (update_installation_date f n s).1.status ≠ 404 := by
  constructor
  · have hb1 : form.equipment_id.isEmpty = false := by
      rw [Bool.eq_false_iff]
      intro h
      exact h1 ((String.isEmpty_iff _).1 h)
    have hb2 : form.installation_date.isEmpty = false := by
      rw [Bool.eq_false_iff]
      intro h
      exact h2 ((String.isEmpty_iff _).1 h)
    have hb3 : form.dealer_code.isEmpty = false := by
      rw [Bool.eq_false_iff]
      intro h
      exact h3 ((String.isEmpty_iff _).1 h)
    unfold update_installation_date
    rw [hb1, hb2, hb3]
    simp only [Bool.or_false, Bool.false_eq_true, if_false]
    rw [h4]
    show (_, store.map (applyUpdate form now)) = _
    have hfix : store.map (applyUpdate form now) = store := by
      apply map_eq_self_of_fixed
      intro x hx
      have hxne : (x.id == form.equipment_id) = false := by
        have := List.filter_eq_nil_iff.1 h4 x hx
        simpa using this
      unfold applyUpdate
      rw [hxne]
      rfl
    rw [hfix]
  · intro f n s
    rcases update_status_400_or_200 f n s with h | h <;> rw [h] <;> decide

/-- C9 witness: an unknown `equipment_id` on an empty store returns the
success message, the store stays empty, and no input yields a 404. -/
theorem update_unknown_id_succeeds_witness :
    update_installation_date ⟨"99", "2025-04-01", "", "D2", "", ""⟩ "T" []
      = (.success "장착일이 성공적으로 등록되었습니다.", [])
    ∧ ∀ (f : UpdateForm) (n : String) (s : List Equipment),
        (update_installation_date f n s).1.status ≠ 404 := by
  exact update_unknown_id_succeeds ⟨"99", "2025-04-01", "", "D2", "", ""⟩ "T" []
    (by decide) (by decide) (by decide) rfl

theorem except_bind_ok {ε α β : Type} (a : α) (f : α → Except ε β) :
    (Except.ok a : Except ε α) >>= f = f a := rfl

theorem recordContrib_of_diff (e : Equipment) (d : Int)
    (hd : recordDiff? e = some d) : recordContrib e = .ok (some d) := by
  unfold recordDiff? at hd
  by_cases hb : hasBothDates e = true
  · rw [if_pos hb] at hd
    unfold recordContrib
    rw [if_pos hb]
    rcases hc : parseDate? (e.created_at.getD "") with _ | cd <;> rw [hc] at hd
    · rcases hi : parseDate? (e.installation_date.getD "") with _ | idd <;>
        rw [hi] at hd <;> cases hd
    · rcases hi : parseDate? (e.installation_date.getD "") with _ | idd <;> rw [hi] at hd
      · cases hd
      · injection hd with hd
        show Except.ok (some (idd - cd)) = Except.ok (some d)
        rw [hd]
  · rw [if_neg hb] at hd
    cases hd

/-- C10: a completed record whose installation date precedes its creation
date contributes its negative day difference to the lead-time list (hence
to the mean) and is counted in the `0-7일` bucket, because the bucket
classification only tests upper bounds. -/
theorem negative_lead_time_counted (e : Equipment) (rest : List Equipment)
    (st : LeadTimeStats) (d : Int)
    (hd : recordDiff? e = some d) (hneg : d < 0)
    (hrest : leadTimeStats rest = .ok st) :
    leadTimeStats (e :: rest)
      = .ok { st with lead_times := d :: st.lead_times, r0_7 := st.r0_7 + 1 }
    ∧ avg_lead_time { st with lead_times := d :: st.lead_times, r0_7 := st.r0_7 + 1 }
      = round1 (mkRat (d :: st.lead_times).sum (d :: st.lead_times).length) := by
  constructor
  · have hc := recordContrib_of_diff e d hd
    have hbu : bucketAdd d st = { st with r0_7 := st.r0_7 + 1 } := by
      unfold bucketAdd
      rw [if_pos (by omega : d ≤ 7)]
    show recordContrib e >>= _ = _
    rw [hc, except_bind_ok, hrest, except_bind_ok]
    show Except.ok (consContrib (some d) st) = _
    simp only [consContrib]
    rw [hbu]
  · rfl

/-- C10 witness: installation `2025-03-07` three days before creation
`2025-03-10` yields lead time `-3`, listed and counted in the first
bucket; the mean over this single record is `-3.0`. -/
theorem negative_lead_time_counted_witness :
    leadTimeStats [{ baseEquip with created_at := some "2025-03-10", installation_date := some "2025-03-07" }]
      = .ok ⟨[-3], 1, 0, 0, 0, 0⟩
    ∧ avg_lead_time ⟨[-3], 1, 0, 0, 0, 0⟩ = round1 (mkRat ([-3] : List Int).sum 1) := by
  exact negative_lead_time_counted
    { baseEquip with created_at := some "2025-03-10", installation_date := some "2025-03-07" }
    [] ⟨[], 0, 0, 0, 0, 0⟩ (-3) (by decide) (by decide) rfl

/-- C2: ingesting a valid payload whose product code is new creates
exactly one record and returns `status=created` with the fresh token;
repeating the ingest against the resulting store creates nothing, returns
`status=exists` with the *same* token, and reports
`already_installed=false` because the record's `installation_date` is
still null. -/
theorem ingest_idempotent (qr : String) (env1 env2 : InsertEnv) (store : List Equipment)
    (hq : qr ≠ "")
    (hlen : (pySplit '?' qr).length = 4 ∨ (pySplit '?' qr).length = 5)
    (hpc : (pySplit '?' qr).getD 0 "" ≠ "")
    (hun : (pySplit '?' qr).getD 3 "" ≠ "")
    (hnew : store.filter (fun e => e.product_code == (pySplit '?' qr).getD 0 "") = []) :
    ∃ ins : Equipment,
      api_scan_qr qr env1 store
        = (.created ((pySplit '?' qr).getD 2 "") ((pySplit '?' qr).getD 3 "") env1.token,
           store ++ [ins])
      ∧ ins.access_token = env1.token
      ∧ ins.installation_date = none
      ∧ (store ++ [ins]).length = store.length + 1
      ∧ api_scan_qr qr env2 (store ++ [ins])
          = (.exist ((pySplit '?' qr).getD 2 "") ((pySplit '?' qr).getD 3 "") env1.token
              false, store ++ [ins]) := by
  have hqe : qr.isEmpty = false := by
    rw [Bool.eq_false_iff]
    intro h
    exact hq ((String.isEmpty_iff qr).1 h)
  have hb : ((pySplit '?' qr).length < 4 || (pySplit '?' qr).length > 4 + 1) = false := by
    simp only [Bool.or_eq_false_iff, decide_eq_false_iff_not]
    omega
  have hpcb : ((pySplit '?' qr).getD 0 "").isEmpty = false := by
    rw [Bool.eq_false_iff]
    intro h
    exact hpc ((String.isEmpty_iff _).1 h)
  have hunb : ((pySplit '?' qr).getD 3 "").isEmpty = false := by
    rw [Bool.eq_false_iff]
    intro h
    exact hun ((String.isEmpty_iff _).1 h)
  have hreq : (((pySplit '?' qr).getD 0 "").isEmpty
      || ((pySplit '?' qr).getD 3 "").isEmpty) = false := by
    rw [hpcb, hunb]
    rfl
  refine ⟨newEquipment ((pySplit '?' qr).getD 0 "") ((pySplit '?' qr).getD 1 "")
    ((pySplit '?' qr).getD 2 "") ((pySplit '?' qr).getD 3 "")
    (if ((pySplit '?' qr).length == 5) = true then (pySplit '?' qr).getD 4 "" else "")
    env1, ?_, rfl, rfl, by simp, ?_⟩
  · unfold api_scan_qr
    rw [hqe]
    simp only [Bool.false_eq_true, if_false]
    rw [if_neg (by rw [hb]; exact Bool.false_ne_true)]
    rw [if_neg (by rw [hreq]; exact Bool.false_ne_true)]
    rw [hnew]
  · unfold api_scan_qr
    rw [hqe]
    simp only [Bool.false_eq_true, if_false]
    rw [if_neg (by rw [hb]; exact Bool.false_ne_true)]
    rw [if_neg (by rw [hreq]; exact Bool.false_ne_true)]
    rw [List.filter_append, hnew]
    rw [List.filter_cons_of_pos (by simp [newEquipment])]
    rfl

/-- C2 witness: the spec's example payload `SCB1?Name?GroupA?U1` on an
empty store — first ingest `created` with token `tok1`, second ingest
`exists` with the same `tok1` and `already_installed = false`. -/
theorem ingest_idempotent_witness :
    ∃ ins : Equipment,
      api_scan_qr "SCB1?Name?GroupA?U1" ⟨"tok1", "id1", "c1"⟩ []
        = (.created "GroupA" "U1" "tok1", [] ++ [ins])
      ∧ ins.access_token = "tok1"
      ∧ ins.installation_date = none
      ∧ ([] ++ [ins]).length = List.length ([] : List Equipment) + 1
      ∧ api_scan_qr "SCB1?Name?GroupA?U1" ⟨"tok2", "id2", "c2"⟩ ([] ++ [ins])
          = (.exist "GroupA" "U1" "tok1" false, [] ++ [ins]) := by
  exact ingest_idempotent "SCB1?Name?GroupA?U1" ⟨"tok1", "id1", "c1"⟩
    ⟨"tok2", "id2", "c2"⟩ [] (by decide) (by decide) (by decide) (by decide) rfl

theorem except_bind_pure {ε α : Type} (x : Except ε α) : x >>= pure = x := by
  cases x <;> rfl

theorem recordContrib_of_no_dates (e : Equipment) (hb : hasBothDates e = false) :
    recordContrib e = .ok none := by
  unfold recordContrib
  rw [hb]
  rfl

theorem leadTimeStats_filter_hasBothDates :
    ∀ store : List Equipment,
      leadTimeStats store = leadTimeStats (store.filter hasBothDates)
  | [] => rfl
  | e :: rest => by
    cases hb : hasBothDates e with
    | true =>
      rw [List.filter_cons_of_pos hb]
      show recordContrib e >>= _ = recordContrib e >>= _
      rw [leadTimeStats_filter_hasBothDates rest]
    | false =>
      rw [List.filter_cons_of_neg (by rw [hb]; exact Bool.false_ne_true)]
      show recordContrib e >>= _ = _
      rw [recordContrib_of_no_dates e hb, except_bind_ok]
      simp only [consContrib]
      rw [except_bind_pure]
      exact leadTimeStats_filter_hasBothDates rest

theorem leadTimeStats_ok :
    ∀ store : List Equipment,
      (∀ e ∈ store, hasBothDates e = true → (recordDiff? e).isSome) →
      leadTimeStats store = .ok {
        lead_times := store.filterMap recordDiff?,
        r0_7 := (store.filterMap recordDiff?).countP (fun d => decide (d ≤ 7)),
        r8_14 := (store.filterMap recordDiff?).countP
          (fun d => decide (7 < d) && decide (d ≤ 14)),
        r15_30 := (store.filterMap recordDiff?).countP
          (fun d => decide (14 < d) && decide (d ≤ 30)),
        r31_60 := (store.filterMap recordDiff?).countP
          (fun d => decide (30 < d) && decide (d ≤ 60)),
        r60p := (store.filterMap recordDiff?).countP (fun d => decide (60 < d)) }
  | [], _ => rfl
  | e :: rest, hparse => by
    have IH := leadTimeStats_ok rest (fun x hx h => hparse x (List.mem_cons_of_mem e hx) h)
    cases hb : hasBothDates e with
    | false =>
      have hdn : recordDiff? e = none := by
        unfold recordDiff?
        rw [hb]
        rfl
      show recordContrib e >>= _ = _
      rw [recordContrib_of_no_dates e hb, except_bind_ok]
      simp only [consContrib]
      rw [except_bind_pure, IH]
      simp only [List.filterMap_cons, hdn]
    | true =>
      obtain ⟨d, hd⟩ := Option.isSome_iff_exists.1
        (hparse e (List.mem_cons_self e rest) hb)
      show recordContrib e >>= _ = _
      rw [recordContrib_of_diff e d hd, except_bind_ok, IH, except_bind_ok]
      simp only [consContrib, List.filterMap_cons, hd]
      unfold bucketAdd
      by_cases h1 : d ≤ 7
      · rw [if_pos h1]
        have e0 : decide (d ≤ 7) = true := by simp; omega
        have e1 : (decide (7 < d) && decide (d ≤ 14)) = false := by simp; omega
        have e2 : (decide (14 < d) && decide (d ≤ 30)) = false := by simp; omega
        have e3 : (decide (30 < d) && decide (d ≤ 60)) = false := by simp; omega
        have e4 : decide (60 < d) = false := by simp; omega
        simp [List.countP_cons, e0, e1, e2, e3, e4, pure, Except.pure]
      · rw [if_neg h1]
        by_cases h2 : d ≤ 14
        · rw [if_pos h2]
          have e0 : decide (d ≤ 7) = false := by simp; omega
          have e1 : (decide (7 < d) && decide (d ≤ 14)) = true := by simp; omega
          have e2 : (decide (14 < d) && decide (d ≤ 30)) = false := by simp; omega
          have e3 : (decide (30 < d) && decide (d ≤ 60)) = false := by simp; omega
          have e4 : decide (60 < d) = false := by simp; omega
          simp [List.countP_cons, e0, e1, e2, e3, e4, pure, Except.pure]
        · rw [if_neg h2]
          by_cases h3 : d ≤ 30
          · rw [if_pos h3]
            have e0 : decide (d ≤ 7) = false := by simp; omega
            have e1 : (decide (7 < d) && decide (d ≤ 14)) = false := by simp; omega
            have e2 : (decide (14 < d) && decide (d ≤ 30)) = true := by simp; omega
            have e3 : (decide (30 < d) && decide (d ≤ 60)) = false := by simp; omega
            have e4 : decide (60 < d) = false := by simp; omega
            simp [List.countP_cons, e0, e1, e2, e3, e4, pure, Except.pure]
          · rw [if_neg h3]
            by_cases h4 : d ≤ 60
            · rw [if_pos h4]
              have e0 : decide (d ≤ 7) = false := by simp; omega
              have e1 : (decide (7 < d) && decide (d ≤ 14)) = false := by simp; omega
              have e2 : (decide (14 < d) && decide (d ≤ 30)) = false := by simp; omega
              have e3 : (decide (30 < d) && decide (d ≤ 60)) = true := by simp; omega
              have e4 : decide (60 < d) = false := by simp; omega
              simp [List.countP_cons, e0, e1, e2, e3, e4, pure, Except.pure]
            · rw [if_neg h4]
              have e0 : decide (d ≤ 7) = false := by simp; omega
              have e1 : (decide (7 < d) && decide (d ≤ 14)) = false := by simp; omega
              have e2 : (decide (14 < d) && decide (d ≤ 30)) = false := by simp; omega
              have e3 : (decide (30 < d) && decide (d ≤ 60)) = false := by simp; omega
              have e4 : decide (60 < d) = true := by simp; omega
              simp [List.countP_cons, e0, e1, e2, e3, e4, pure, Except.pure]

/-- C6: for any record collection whose completed records all have
parseable dates and non-negative lead times, the dashboard report (a) puts
the day difference of every record having both dates into `lead_times` and
counts it in the claimed range buckets `0-7` (7 included), `8-14`,
`15-30`, `31-60` and over 60, (b) ignores records missing either date
(filtering them out changes nothing), and (c) reports the mean of exactly
those differences rounded to one decimal place. -/
theorem lead_time_report (store : List Equipment)
    (hparse : ∀ e ∈ store, hasBothDates e = true → (recordDiff? e).isSome)
    (hpos : ∀ d ∈ store.filterMap recordDiff?, 0 ≤ d) :
    leadTimeStats store = .ok {
      lead_times := store.filterMap recordDiff?,
      r0_7 := (store.filterMap recordDiff?).countP
        (fun d => decide (0 ≤ d) && decide (d ≤ 7)),
      r8_14 := (store.filterMap recordDiff?).countP
        (fun d => decide (8 ≤ d) && decide (d ≤ 14)),
      r15_30 := (store.filterMap recordDiff?).countP
        (fun d => decide (15 ≤ d) && decide (d ≤ 30)),
      r31_60 := (store.filterMap recordDiff?).countP
        (fun d => decide (31 ≤ d) && decide (d ≤ 60)),
      r60p := (store.filterMap recordDiff?).countP (fun d => decide (60 < d)) }
    ∧ leadTimeStats store = leadTimeStats (store.filter hasBothDates)
    ∧ (leadTimeStats store).map avg_lead_time
        = .ok (round1 (if (store.filterMap recordDiff?).isEmpty then 0
            else mkRat (store.filterMap recordDiff?).sum
              (store.filterMap recordDiff?).length)) := by
  have h1 := leadTimeStats_ok store hparse
  refine ⟨?_, leadTimeStats_filter_hasBothDates store, ?_⟩
  · rw [h1]
    refine congrArg Except.ok ?_
    rw [LeadTimeStats.mk.injEq]
    refine ⟨rfl, ?_, ?_, ?_, ?_, rfl⟩ <;>
      refine List.countP_congr (fun d hd => ?_) <;>
      have h0 := hpos d hd <;>
      simp <;> omega
  · rw [h1]
    rfl

/-- C6 witness: three completed records with lead times 7, 8 and 10 days
and one record without a creation date — 7 lands in the `0-7` bucket, 8
and 10 in `8-14`, the dateless record is excluded, and the mean is
`round(25/3, 1) = 8.3`. -/
theorem lead_time_report_witness :
    leadTimeStats
      [{ baseEquip with created_at := some "2025-01-01", installation_date := some "2025-01-08" },
       { baseEquip with created_at := some "2025-01-01", installation_date := some "2025-01-09" },
       { baseEquip with created_at := some "2025-01-01", installation_date := some "2025-01-11" },
       { baseEquip with installation_date := some "2025-01-05" }]
      = .ok { lead_times := [7, 8, 10], r0_7 := 1, r8_14 := 2, r15_30 := 0,
              r31_60 := 0, r60p := 0 }
    ∧ leadTimeStats
      [{ baseEquip with created_at := some "2025-01-01", installation_date := some "2025-01-08" },
       { baseEquip with created_at := some "2025-01-01", installation_date := some "2025-01-09" },
       { baseEquip with created_at := some "2025-01-01", installation_date := some "2025-01-11" },
       { baseEquip with installation_date := some "2025-01-05" }]
      = leadTimeStats
      ([{ baseEquip with created_at := some "2025-01-01", installation_date := some "2025-01-08" },
        { baseEquip with created_at := some "2025-01-01", installation_date := some "2025-01-09" },
        { baseEquip with created_at := some "2025-01-01", installation_date := some "2025-01-11" },
        { baseEquip with installation_date := some "2025-01-05" }].filter hasBothDates)
    ∧ (leadTimeStats
      [{ baseEquip with created_at := some "2025-01-01", installation_date := some "2025-01-08" },
       { baseEquip with created_at := some "2025-01-01", installation_date := some "2025-01-09" },
       { baseEquip with created_at := some "2025-01-01", installation_date := some "2025-01-11" },
       { baseEquip with installation_date := some "2025-01-05" }]).map avg_lead_time
      = .ok (mkRat 83 10) := by
  have h := lead_time_report
    [{ baseEquip with created_at := some "2025-01-01", installation_date := some "2025-01-08" },
     { baseEquip with created_at := some "2025-01-01", installation_date := some "2025-01-09" },
     { baseEquip with created_at := some "2025-01-01", installation_date := some "2025-01-11" },
     { baseEquip with installation_date := some "2025-01-05" }]
    (by decide) (by decide)
  refine ⟨?_, h.2.1, ?_⟩
  · rw [h.1]
    decide
  · rw [h.2.2]
    decide

end SSQR
